import Mathlib

/-!
Verification development for the composite NeRF network evaluator of
nerf_network.h (class NerfNetwork).

The class orchestrates five externally implemented sub-modules (a position
encoder, a direction encoder, and density / uv / rgb feed-forward networks)
over packed per-batch buffers. The embedding below models

* each sub-module by its consumed contract (widths, parameter count,
  preferred layout, a semantic forward map and a backward input-gradient
  map) as a `NetworkModule`;
* device buffers as total functions `Nat → α` (flat memory) or
  `Nat → Nat → α` (matrix contents, indexed row then column), with the
  elementwise CUDA kernels of the file translated one by one into pure
  memory transformers that perform the same pointer arithmetic;
* the two mutable per-instance fields (`m_uv_network_scale`, `m_uv_grid`)
  as an explicit `NetState`, with each member function that touches them
  modelled as a state transformer.

Matrix layouts follow tiny-cuda-nn: `CM` (column major, alias AoS) stores
the entries of one element (column) contiguously with column stride equal
to the row count; `RM` (row major, alias SoA) stores each row contiguously
with row stride equal to the column count.
-/

namespace NGP

/-- tcnn matrix memory orderings. `CM` is tcnn AoS, `RM` is tcnn SoA. -/
inductive MatrixLayout where
  | RM
  | CM
deriving DecidableEq, Repr

/-- tcnn next_multiple: round `val` up to a multiple of `divisor`. -/
def next_multiple (val divisor : Nat) : Nat :=
  ((val + divisor - 1) / divisor) * divisor

/-- A minimal model of nlohmann json values, enough for the reflected
configurations that `hyperparams` assembles. -/
inductive JsonVal where
  | str : String → JsonVal
  | nat : Nat → JsonVal
  | obj : List (String × JsonVal) → JsonVal

/-- Assignment `j[k] = v` on the key-value list of a json object: replace the
first binding of `k`, or append one. -/
def setKeyList : List (String × JsonVal) → String → JsonVal → List (String × JsonVal)
  | [], k, v => [(k, v)]
  | (k0, v0) :: rest, k, v =>
      if k0 = k then (k, v) :: rest else (k0, v0) :: setKeyList rest k v

/-- Assignment `j[k] = v` on a json value (the sub-module configurations fed
to it are objects; other shapes are left unchanged). -/
def jsonSetKey : JsonVal → String → JsonVal → JsonVal
  | .obj kvs, k, v => .obj (setKeyList kvs k v)
  | j, _, _ => j

/-- Lookup of `k` in the key-value list of a json object. -/
def lookupList : List (String × JsonVal) → String → Option JsonVal
  | [], _ => none
  | (k0, v0) :: rest, k => if k0 = k then some v0 else lookupList rest k

/-- Lookup `j[k]` on a json value. -/
def jsonLookup : JsonVal → String → Option JsonVal
  | .obj kvs, k => lookupList kvs k
  | _, _ => none

/-- The keys of a json object, in order. -/
def jsonKeys : JsonVal → List String
  | .obj kvs => kvs.map Prod.fst
  | _ => []

/-- An external sub-module (coordinate encoder or feed-forward network),
abstracted by the contract the composite consumes: widths, parameter count,
preferred output layout, a semantic forward map (shared by `forward` and
`inference_mixed_precision`, whose sub-module outputs the composite treats
as interchangeable), a backward map producing the input gradient from the
forward input and the output gradient, layer introspection, and the
reflected configuration. -/
structure NetworkModule (α : Type) where
  input_width : Nat
  padded_output_width : Nat
  n_params : Nat
  preferred_output_layout : MatrixLayout
  fwd : (Nat → Nat → α) → Nat → Nat → α
  bwdInput : (Nat → Nat → α) → (Nat → Nat → α) → Nat → Nat → α
  num_forward_activations : Nat
  width : Nat → Nat
  hyperparams : JsonVal

/-- The immutable configuration of a `NerfNetwork` instance: the five
sub-modules created by the constructor, the rgb alignment
(`tcnn::minimum_alignment(rgb_network)`), and the four dimension counts. -/
structure NerfNetwork (α : Type) where
  m_density_network : NetworkModule α
  m_uv_network : NetworkModule α
  m_rgb_network : NetworkModule α
  m_pos_encoding : NetworkModule α
  m_dir_encoding : NetworkModule α
  rgb_alignment : Nat
  m_n_pos_dims : Nat
  m_n_dir_dims : Nat
  m_n_extra_dims : Nat
  m_dir_offset : Nat

variable {α : Type}

/-- `m_rgb_network_input_width` as the constructor computes it:
`next_multiple(dir_encoding.padded_output_width + uv_network.padded_output_width,
rgb_alignment)`. -/
def NerfNetwork.m_rgb_network_input_width (net : NerfNetwork α) : Nat :=
  next_multiple
    (net.m_dir_encoding.padded_output_width + net.m_uv_network.padded_output_width)
    net.rgb_alignment

/-- `padded_output_width()`: `max(rgb_network.padded_output_width, 4)`. -/
def NerfNetwork.padded_output_width (net : NerfNetwork α) : Nat :=
  max net.m_rgb_network.padded_output_width 4

/-- `input_width()`: `dir_offset + n_dir_dims + n_extra_dims`. -/
def NerfNetwork.input_width (net : NerfNetwork α) : Nat :=
  net.m_dir_offset + net.m_n_dir_dims + net.m_n_extra_dims

/-- `n_params()`: the sum over the five sub-modules, in the source order of
the return expression (pos encoding, density, uv, dir encoding, rgb). -/
def NerfNetwork.n_params (net : NerfNetwork α) : Nat :=
  net.m_pos_encoding.n_params + net.m_density_network.n_params
    + net.m_uv_network.n_params + net.m_dir_encoding.n_params
    + net.m_rgb_network.n_params

/-- `set_params_impl`: the `(label, offset, size)` range each sub-module
receives from the flat `(params, inference_params, gradients)` buffers, in
the source call order with the running offset advanced by each sub-module
reported parameter count. -/
def NerfNetwork.set_params_impl (net : NerfNetwork α) : List (String × Nat × Nat) :=
  [("density_network", 0, net.m_density_network.n_params),
   ("uv_network", 0 + net.m_density_network.n_params, net.m_uv_network.n_params),
   ("rgb_network", 0 + net.m_density_network.n_params + net.m_uv_network.n_params,
      net.m_rgb_network.n_params),
   ("pos_encoding",
      0 + net.m_density_network.n_params + net.m_uv_network.n_params
        + net.m_rgb_network.n_params, net.m_pos_encoding.n_params),
   ("dir_encoding",
      0 + net.m_density_network.n_params + net.m_uv_network.n_params
        + net.m_rgb_network.n_params + net.m_pos_encoding.n_params,
      net.m_dir_encoding.n_params)]

/-- `initialize_params`: the `(label, offset, size)` range each sub-module
initializes inside the full-precision buffer, in the source call order with
the pointer advanced by each sub-module reported parameter count. -/
def NerfNetwork.initialize_params (net : NerfNetwork α) : List (String × Nat × Nat) :=
  [("density_network", 0, net.m_density_network.n_params),
   ("uv_network", 0 + net.m_density_network.n_params, net.m_uv_network.n_params),
   ("rgb_network", 0 + net.m_density_network.n_params + net.m_uv_network.n_params,
      net.m_rgb_network.n_params),
   ("pos_encoding",
      0 + net.m_density_network.n_params + net.m_uv_network.n_params
        + net.m_rgb_network.n_params, net.m_pos_encoding.n_params),
   ("dir_encoding",
      0 + net.m_density_network.n_params + net.m_uv_network.n_params
        + net.m_rgb_network.n_params + net.m_pos_encoding.n_params,
      net.m_dir_encoding.n_params)]

/-- The two mutable per-instance fields of the class. `m_uv_network_scale`
is a plain float member; `none` models its indeterminate value while it has
never been assigned. `m_uv_grid` is the lazily generated texture uv grid,
stored with its generation-time element count `n` (the buffer holds `2 * n`
values). -/
structure NetState (α : Type) where
  m_uv_network_scale : Option α
  m_uv_grid : Option (Nat × (Nat → α))

/-- The constructor effect on the mutable fields: the member-initializer
list and the body assign neither `m_uv_network_scale` (left indeterminate)
nor `m_uv_grid` (a default-constructed matrix with null data). -/
def constructed_state (α : Type) : NetState α :=
  { m_uv_network_scale := none, m_uv_grid := none }

/-- Accessor `uv_network_scale()`: reads the current field contents. -/
def NerfNetwork.uv_network_scale (st : NetState α) : Option α :=
  st.m_uv_network_scale

/-- `set_uv_network_scale(scale)`: the only write to `m_uv_network_scale`. -/
def NerfNetwork.set_uv_network_scale (st : NetState α) (scale : α) : NetState α :=
  { st with m_uv_network_scale := some scale }

/-- The value the `scale_gradient` launch inside `backward_impl` reads: the
current contents of `m_uv_network_scale`. -/
def NerfNetwork.backward_scale_read (st : NetState α) : Option α :=
  st.m_uv_network_scale

/-! ## Flat device memory and the elementwise kernels

A device buffer is a total function `Nat → α`; writes produce a new
function. Matrix views follow the tcnn addressing: a `rows × cols` matrix
in layout `CM` puts entry `(r, c)` at flat address `c * rows + r`, in
layout `RM` at `r * cols + c`. -/

/-- Entry `(r, c)` of a `rows × cols` matrix stored flat in layout `L`. -/
def matGet (L : MatrixLayout) (rows cols : Nat) (mem : Nat → α) : Nat → Nat → α :=
  match L with
  | .RM => fun r c => mem (r * cols + c)
  | .CM => fun r c => mem (c * rows + r)

/-- A sub-module writing its `rows × B` output through the zero-copy
`slice_rows start rows` view of a `W × B` matrix in layout `L`: every view
position receives the module value, every other address keeps `mem`. With
`start = 0` and `rows = W` this is a write through the whole matrix. -/
def sliceWrite (L : MatrixLayout) (W B start rows : Nat)
    (f : Nat → Nat → α) (mem : Nat → α) : Nat → α :=
  match L with
  | .RM => fun a =>
      if start ≤ a / B ∧ a / B < start + rows then f (a / B - start) (a % B) else mem a
  | .CM => fun a =>
      if start ≤ a % W ∧ a % W < start + rows ∧ a / W < B then
        f (a % W - start) (a / W)
      else mem a

/-- `cudaMemsetAsync(ptr + off, 0, len * sizeof(T))` on a flat buffer. -/
def memsetZero [Zero α] (off len : Nat) (mem : Nat → α) : Nat → α :=
  fun a => if off ≤ a ∧ a < off + len then 0 else mem a

/-- Flat contents of a freshly allocated `m × n` buffer with the default
(CM) layout holding matrix `f`: address `a` holds entry `(a % m, a / m)`. -/
def cmFlat (m : Nat) (f : Nat → Nat → α) : Nat → α :=
  fun a => f (a % m) (a / m)

/-- Kernel `extract_density`: for every `i < n_elements`,
`rgbd[i * rgbd_stride] = density[i * density_stride]`, with `rgbd` pointing
at offset `rgbdOff` of `mem` and `density` read from a flat source. -/
def extract_density (
    n_elements density_stride rgbd_stride : Nat)
    (density : Nat → α) (rgbdOff : Nat) (mem : Nat → α) : Nat → α :=
  fun a =>
    if rgbdOff ≤ a ∧ (a - rgbdOff) % rgbd_stride = 0
        ∧ (a - rgbdOff) / rgbd_stride < n_elements then
      density (((a - rgbdOff) / rgbd_stride) * density_stride)
    else mem a

/-- Kernel `extract_uv`: for every `i < n_elements`,
`output[i * output_stride] = uv[i * uv_stride]`, with `output` pointing at
offset `outOff` of `mem` and `uv` at offset `uvOff` of the flat source. -/
def extract_uv (
    n_elements uv_stride output_stride : Nat)
    (uv : Nat → α) (uvOff outOff : Nat) (mem : Nat → α) : Nat → α :=
  fun a =>
    if outOff ≤ a ∧ (a - outOff) % output_stride = 0
        ∧ (a - outOff) / output_stride < n_elements then
      uv (uvOff + ((a - outOff) / output_stride) * uv_stride)
    else mem a

/-! ## The shared forward computation

Both `inference_mixed_precision_impl` and `forward_impl` run, in this
order: pos encoding into the density-network input; density network;
uv network through the `slice_rows(dir_w, uv_w)` view of the packed
rgb-input buffer; `fill_unused_rgb_input`; dir encoding through the leading
`slice_rows(0, dir_w)` view; rgb network from the packed buffer into the
caller output. The sub-module calls are modelled by the semantic maps of
the `NetworkModule` contract. -/

/-- Content of `input.slice_rows(start, rows)`: rows shifted by `start`. -/
def slice_rows_content (start : Nat) (f : Nat → Nat → α) : Nat → Nat → α :=
  fun r c => f (start + r) c

/-- `density_network_input` content: the pos encoding applied to
`input.slice_rows(0, pos_encoding.input_width)`. -/
def NerfNetwork.density_network_input (net : NerfNetwork α)
    (input : Nat → Nat → α) : Nat → Nat → α :=
  net.m_pos_encoding.fwd input

/-- `density_network_output` content: the density network applied to the
density-network input. -/
def NerfNetwork.density_network_output (net : NerfNetwork α)
    (input : Nat → Nat → α) : Nat → Nat → α :=
  net.m_density_network.fwd (net.density_network_input input)

/-- `uv_network_output` content: the uv network applied to the
density-network input. -/
def NerfNetwork.uv_network_output (net : NerfNetwork α)
    (input : Nat → Nat → α) : Nat → Nat → α :=
  net.m_uv_network.fwd (net.density_network_input input)

/-- Dir encoding output content: the dir encoding applied to
`input.slice_rows(dir_offset, dir_encoding.input_width)`. -/
def NerfNetwork.dir_encoding_output (net : NerfNetwork α)
    (input : Nat → Nat → α) : Nat → Nat → α :=
  net.m_dir_encoding.fwd (slice_rows_content net.m_dir_offset input)

/-- `fill_unused_rgb_input(stream, ptr, batch_size)`: zeroes
`(uv_w - 2) * batch_size` flat elements starting at flat offset
`(dir_w + 2) * batch_size` of the packed buffer (the subtraction is on
uint32; every constructible uv network has `uv_w ≥ 2`). -/
def NerfNetwork.fill_unused_rgb_input [Zero α] (net : NerfNetwork α)
    (B : Nat) (mem : Nat → α) : Nat → α :=
  memsetZero ((net.m_dir_encoding.padded_output_width + 2) * B)
    ((net.m_uv_network.padded_output_width - 2) * B) mem

/-- The packed rgb-network input buffer as both inference and forward build
it: the uv-network output written through its `slice_rows` view of the
fresh `W × B` allocation (layout: the dir-encoding preferred layout, whose
indeterminate initial contents are `mem0`), then `fill_unused_rgb_input`,
then the dir encoding written through the leading view. -/
def NerfNetwork.rgb_network_input [Zero α] (net : NerfNetwork α) (B : Nat)
    (input : Nat → Nat → α) (mem0 : Nat → α) : Nat → α :=
  sliceWrite net.m_dir_encoding.preferred_output_layout
    net.m_rgb_network_input_width B 0 net.m_dir_encoding.padded_output_width
    (net.dir_encoding_output input)
    (net.fill_unused_rgb_input B
      (sliceWrite net.m_dir_encoding.preferred_output_layout
        net.m_rgb_network_input_width B net.m_dir_encoding.padded_output_width
        net.m_uv_network.padded_output_width
        (net.uv_network_output input) mem0))

/-- `rgb_network_output` content: the rgb network applied to the packed
buffer read back in its layout. -/
def NerfNetwork.rgb_network_output [Zero α] (net : NerfNetwork α) (B : Nat)
    (input : Nat → Nat → α) (mem0 : Nat → α) : Nat → Nat → α :=
  net.m_rgb_network.fwd
    (matGet net.m_dir_encoding.preferred_output_layout
      net.m_rgb_network_input_width B (net.rgb_network_input B input mem0))

/-- `inference_mixed_precision_impl`: the flat contents of the caller
output buffer after the call. `outL` is the declared layout of the output
matrix, `outInit` its prior contents and `rgbInit` the indeterminate
contents of the fresh packed buffer. Writes, innermost first:
the rgb network through the `{output.data(), rgb_w, B, output.layout()}`
view; `extract_density` with source stride `density_w` (the density output
buffer has the default CM layout, so `layout() == AoS` and its stride is
its row count), destination stride `padded_output_width()` or 1 and offset
`3` or `3 * B` by the output layout; `extract_uv` for channel 4 and then
channel 5, reading the zero-copy uv slice of the packed buffer (data offset
`dir_w` and column stride `W` when the packed layout is CM, data offset
`dir_w * B` and stride 1 when it is RM; the v row is one further element in
CM, `B` further in RM). -/
def NerfNetwork.inference_mixed_precision_impl [Zero α] (net : NerfNetwork α)
    (outL : MatrixLayout) (B : Nat) (input : Nat → Nat → α)
    (rgbInit outInit : Nat → α) : Nat → α :=
  extract_uv B
    (if net.m_dir_encoding.preferred_output_layout = .CM
      then net.m_rgb_network_input_width else 1)
    (if outL = .CM then net.padded_output_width else 1)
    (net.rgb_network_input B input rgbInit)
    ((if net.m_dir_encoding.preferred_output_layout = .CM
        then net.m_dir_encoding.padded_output_width
        else net.m_dir_encoding.padded_output_width * B)
      + (if net.m_dir_encoding.preferred_output_layout = .CM then 1 else B))
    (5 * (if outL = .CM then 1 else B))
    (extract_uv B
      (if net.m_dir_encoding.preferred_output_layout = .CM
        then net.m_rgb_network_input_width else 1)
      (if outL = .CM then net.padded_output_width else 1)
      (net.rgb_network_input B input rgbInit)
      (if net.m_dir_encoding.preferred_output_layout = .CM
        then net.m_dir_encoding.padded_output_width
        else net.m_dir_encoding.padded_output_width * B)
      (4 * (if outL = .CM then 1 else B))
      (extract_density B net.m_density_network.padded_output_width
        (if outL = .CM then net.padded_output_width else 1)
        (cmFlat net.m_density_network.padded_output_width
          (net.density_network_output input))
        (3 * (if outL = .CM then 1 else B))
        (sliceWrite outL net.m_rgb_network.padded_output_width B 0
          net.m_rgb_network.padded_output_width
          (net.rgb_network_output B input rgbInit) outInit)))

/-- `forward_impl` with a non-null output: the flat contents of the caller
output buffer after the call. The rgb write is as in inference; the density
extraction uses destination offset `3` and destination stride
`padded_output_width()` unconditionally, and its source stride tests the
dir-encoding preferred layout instead of the density buffer layout; the uv
extraction of channels 4 and 5 is commented out in the source and absent. -/
def NerfNetwork.forward_impl [Zero α] (net : NerfNetwork α)
    (outL : MatrixLayout) (B : Nat) (input : Nat → Nat → α)
    (rgbInit outInit : Nat → α) : Nat → α :=
  extract_density B
    (if net.m_dir_encoding.preferred_output_layout = .CM
      then net.m_density_network.padded_output_width else 1)
    net.padded_output_width
    (cmFlat net.m_density_network.padded_output_width
      (net.density_network_output input))
    3
    (sliceWrite outL net.m_rgb_network.padded_output_width B 0
      net.m_rgb_network.padded_output_width
      (net.rgb_network_output B input rgbInit) outInit)

/-! ## Backward

`backward_impl` consumes the ForwardContext of the matching forward call.
The packed-buffer gradient `dL_drgb_network_input` is allocated in the
dir-encoding preferred layout; the flat launches operating on it
(`fill_unused_rgb_input`, `scale_gradient`) are modelled on its flat
representation with their exact pointer arithmetic, so their meaning
depends on that layout exactly as in the source. -/

/-- The buffers of a ForwardContext that `backward_impl` reads. -/
structure ForwardContext (α : Type) where
  density_network_input : Nat → Nat → α
  density_network_output : Nat → Nat → α
  rgb_network_input : Nat → Nat → α
  uv_network_output : Nat → Nat → α

/-- What `backward_impl` produces and which optional steps ran. -/
structure BackwardResult (α : Type) where
  dL_drgb : Nat → Nat → α
  dL_drgb_network_input_mem : Nat → α
  dir_ran : Bool
  dL_ddensity_network_input : Option (Nat → Nat → α)
  dL_duv_network_input : Nat → Nat → α
  pos_backward_arg : Option (Nat → Nat → α)
  pos_ran : Bool

/-- Flat contents of a `rows × cols` buffer in layout `L` holding matrix
`f` (the inverse of `matGet`). -/
def matFlat (L : MatrixLayout) (rows cols : Nat) (f : Nat → Nat → α) : Nat → α :=
  match L with
  | .RM => fun a => f (a / cols) (a % cols)
  | .CM => fun a => f (a % rows) (a / rows)

/-- The zero-copy `slice_rows(start, rows)` view of a `W × B` flat buffer
in layout `L`, read back as a matrix: entry `(r, c)` of the view is the
parent entry `(start + r, c)` (row stride `B` for an RM parent, column
stride `W` for a CM parent). -/
def sliceView (L : MatrixLayout) (W B start : Nat) (mem : Nat → α) : Nat → Nat → α :=
  match L with
  | .RM => fun r c => mem ((start + r) * B + c)
  | .CM => fun r c => mem (c * W + (start + r))

/-- Kernel `scale_gradient`: `output[i] = (T)scale * output[i]` for every
`i < n_elements`, with `output` pointing at offset `off` of `mem`. -/
def scale_gradient [Mul α] (n_elements : Nat) (scale : α) (off : Nat)
    (mem : Nat → α) : Nat → α :=
  fun a => if off ≤ a ∧ a < off + n_elements then scale * mem a else mem a

/-- Step 1 of `backward_impl`: `dL_drgb` is memset to zero, then
`extract_rgb` copies channels 0..2 of every element of `dL_doutput`. -/
def backward_dL_drgb [Zero α] (B : Nat)
    (dL_doutput : Nat → Nat → α) : Nat → Nat → α :=
  fun r c => if r < 3 ∧ c < B then dL_doutput r c else 0

/-- Step 2: rgb-network backward maps the packed forward input and
`dL_drgb` to the packed-buffer gradient `dL_drgb_network_input`
(a `W × B` buffer in the dir-encoding preferred layout). -/
def NerfNetwork.backward_dL_drgb_network_input [Zero α] (net : NerfNetwork α)
    (ctx : ForwardContext α) (B : Nat)
    (dL_doutput : Nat → Nat → α) : Nat → Nat → α :=
  net.m_rgb_network.bwdInput ctx.rgb_network_input (backward_dL_drgb B dL_doutput)

/-- The packed-buffer gradient as flat memory after the two flat launches
that precede uv-net backward: `fill_unused_rgb_input` zeroes
`(uv_w - 2) * B` elements from flat offset `(dir_w + 2) * B`, then
`scale_gradient` multiplies `uv_w * B` contiguous elements from the uv
slice data pointer (flat offset `dir_w` for a CM buffer, `dir_w * B` for
RM). Which matrix entries these flat ranges cover depends on the buffer
layout. -/
def NerfNetwork.backward_packed_gradient_mem [Zero α] [Mul α]
    (net : NerfNetwork α) (ctx : ForwardContext α) (B : Nat) (scale : α)
    (dL_doutput : Nat → Nat → α) : Nat → α :=
  scale_gradient (net.m_uv_network.padded_output_width * B) scale
    (if net.m_dir_encoding.preferred_output_layout = .CM
      then net.m_dir_encoding.padded_output_width
      else net.m_dir_encoding.padded_output_width * B)
    (net.fill_unused_rgb_input B
      (matFlat net.m_dir_encoding.preferred_output_layout
        net.m_rgb_network_input_width B
        (net.backward_dL_drgb_network_input ctx B dL_doutput)))

/-- `dL_duv_network_output`: the `slice_rows(dir_w, uv_w)` view that
uv-net backward consumes, of the filled and scaled packed gradient. -/
def NerfNetwork.backward_dL_duv_network_output [Zero α] [Mul α]
    (net : NerfNetwork α) (ctx : ForwardContext α) (B : Nat) (scale : α)
    (dL_doutput : Nat → Nat → α) : Nat → Nat → α :=
  sliceView net.m_dir_encoding.preferred_output_layout
    net.m_rgb_network_input_width B net.m_dir_encoding.padded_output_width
    (net.backward_packed_gradient_mem ctx B scale dL_doutput)

/-- The uv-path contribution in density-network-input space that uv-net
backward would return on the same view of the packed-buffer gradient with
the `scale_gradient` launch omitted. -/
def NerfNetwork.unscaled_uv_contribution [Zero α] (net : NerfNetwork α)
    (ctx : ForwardContext α) (B : Nat)
    (dL_doutput : Nat → Nat → α) : Nat → Nat → α :=
  net.m_uv_network.bwdInput ctx.density_network_input
    (sliceView net.m_dir_encoding.preferred_output_layout
      net.m_rgb_network_input_width B net.m_dir_encoding.padded_output_width
      (net.fill_unused_rgb_input B
        (matFlat net.m_dir_encoding.preferred_output_layout
          net.m_rgb_network_input_width B
          (net.backward_dL_drgb_network_input ctx B dL_doutput))))

/-- Step 5 input: `dL_ddensity_network_output` is memset to zero, then
`add_density_gradient` adds channel 3 of every element of `dL_doutput`
into row 0 (the buffer has the default CM layout and stride `density_w`). -/
def backward_dL_ddensity_network_output [Zero α] (B : Nat)
    (dL_doutput : Nat → Nat → α) : Nat → Nat → α :=
  fun r c => if r = 0 ∧ c < B then dL_doutput 3 c else 0

/-- G_density: what density-network backward deposits in
density-network-input space. -/
def NerfNetwork.backward_G_density [Zero α] (net : NerfNetwork α)
    (ctx : ForwardContext α) (B : Nat)
    (dL_doutput : Nat → Nat → α) : Nat → Nat → α :=
  net.m_density_network.bwdInput ctx.density_network_input
    (backward_dL_ddensity_network_output B dL_doutput)

/-- G_uv: what uv-network backward deposits in density-network-input
space, consuming the uv slice view of the filled and scaled packed
gradient. -/
def NerfNetwork.backward_G_uv [Zero α] [Mul α] (net : NerfNetwork α)
    (ctx : ForwardContext α) (B : Nat) (scale : α)
    (dL_doutput : Nat → Nat → α) : Nat → Nat → α :=
  net.m_uv_network.bwdInput ctx.density_network_input
    (net.backward_dL_duv_network_output ctx B scale dL_doutput)

/-- `backward_impl`. In source order: extract the rgb channels of the
output gradient; rgb backward; dir-encoding backward when the dir encoding
is trainable or an input gradient was requested; build
`dL_ddensity_network_output` from channel 3; allocate the
density-network-input-space buffer exactly when the pos encoding is
trainable or an input gradient was requested; density backward (writing
G_density into that buffer when allocated); slice and fill the packed
gradient; `scale_gradient` over the flat uv-slice range; uv backward
producing `dL_duv_network_input`; `add_gradient` summing it into the
allocated buffer; pos-encoding backward on the summed buffer when
allocated. -/
def NerfNetwork.backward_impl [Zero α] [Mul α] [Add α] (net : NerfNetwork α)
    (ctx : ForwardContext α) (B : Nat) (scale : α)
    (dL_doutput : Nat → Nat → α) (wantInputGrad : Bool) : BackwardResult α :=
  { dL_drgb := backward_dL_drgb B dL_doutput
    dL_drgb_network_input_mem := net.backward_packed_gradient_mem ctx B scale dL_doutput
    dir_ran := (net.m_dir_encoding.n_params != 0) || wantInputGrad
    dL_ddensity_network_input :=
      if (net.m_pos_encoding.n_params != 0) || wantInputGrad then
        some (fun r c => net.backward_G_density ctx B dL_doutput r c
          + net.backward_G_uv ctx B scale dL_doutput r c)
      else none
    dL_duv_network_input := net.backward_G_uv ctx B scale dL_doutput
    pos_backward_arg :=
      if (net.m_pos_encoding.n_params != 0) || wantInputGrad then
        some (fun r c => net.backward_G_density ctx B dL_doutput r c
          + net.backward_G_uv ctx B scale dL_doutput r c)
      else none
    pos_ran := (net.m_pos_encoding.n_params != 0) || wantInputGrad }

/-- Reads an optionally allocated buffer; an unallocated buffer has no
contents and yields 0. -/
def optApply [Zero α] (o : Option (Nat → Nat → α)) (r c : Nat) : α :=
  match o with
  | some f => f r c
  | none => 0

/-! ## The reduced density-only path

Each of `density`, `density_forward` and `density_backward` validates the
memory ordering of its external buffers first; on violation it throws
before any buffer is allocated or any kernel is enqueued (the embedding
returns `Except.error` carrying the message and no result). -/

/-- True on an `Except.ok` result. -/
def isOkB {ε β : Type} : Except ε β → Bool
  | .ok _ => true
  | .error _ => false

/-- `density(stream, input, output)`: requires the external input to be
column major; on success, pos encoding then density-network inference. -/
def NerfNetwork.density (net : NerfNetwork α) (inputLayout : MatrixLayout)
    (input : Nat → Nat → α) : Except String (Nat → Nat → α) :=
  if inputLayout != .CM then
    .error "NerfNetwork density input must be in column major format."
  else
    .ok (net.density_network_output input)

/-- The context a `density_forward` call returns. -/
structure DensityForwardContext (α : Type) where
  density_network_input : Nat → Nat → α
  density_network_output : Option (Nat → Nat → α)

/-- `density_forward`: requires the external input to be column major; on
success returns the context holding the pos-encoding output and, when an
output matrix was supplied, the density-network output. -/
def NerfNetwork.density_forward (net : NerfNetwork α)
    (inputLayout : MatrixLayout) (input : Nat → Nat → α)
    (wantOutput : Bool) : Except String (DensityForwardContext α) :=
  if inputLayout != .CM then
    .error "NerfNetwork density_forward input must be in column major format."
  else
    .ok { density_network_input := net.density_network_input input
          density_network_output :=
            if wantOutput then some (net.density_network_output input) else none }

/-- What `density_backward` produces. -/
structure DensityBackwardResult (α : Type) where
  dL_ddensity_network_input : Option (Nat → Nat → α)
  pos_ran : Bool

/-- `density_backward`: requires the external input, and the external
input-gradient destination when one is supplied, to be column major
(`dL_dinput_layout` carries the layout of the supplied destination, or
`none`); on success, density backward and conditional pos-encoding
backward as in the full path. -/
def NerfNetwork.density_backward (net : NerfNetwork α)
    (inputLayout : MatrixLayout) (dL_dinput_layout : Option MatrixLayout)
    (ctx : DensityForwardContext α)
    (dL_doutput : Nat → Nat → α) : Except String (DensityBackwardResult α) :=
  if inputLayout != .CM
      || (match dL_dinput_layout with
          | some L0 => L0 != .CM
          | none => false) then
    .error "NerfNetwork density_backward input must be in column major format."
  else
    .ok { dL_ddensity_network_input :=
            if (net.m_pos_encoding.n_params != 0) || dL_dinput_layout.isSome then
              some (net.m_density_network.bwdInput ctx.density_network_input dL_doutput)
            else none
          pos_ran := (net.m_pos_encoding.n_params != 0) || dL_dinput_layout.isSome }

/-! ## The direction-conditioned texture path -/

/-- Kernel `generate_uv_grid` launched over `n` threads: thread `i` writes
`output[i] = (i mod tex_size) / tex_size` and
`output[i + n] = (i / tex_size) / tex_size`. Addresses at or beyond `2 * n`
are outside the fresh `2 × n` allocation and read 0 here. -/
def generate_uv_grid [Field α] (n tex_size : Nat) : Nat → α :=
  fun a =>
    if a < n then ((a % tex_size : Nat) : α) / (tex_size : α)
    else if a < 2 * n then (((a - n) / tex_size : Nat) : α) / (tex_size : α)
    else 0

/-- What one `uv2texture` call yields: the state after the call, whether
the grid was generated by this call, the grid contents and element count
used, and the rgb output. -/
structure Uv2TextureResult (α : Type) where
  state : NetState α
  generated : Bool
  grid_size : Nat
  grid_used : Nat → α
  output : Nat → Nat → α

/-- The tail of `uv2texture` once the grid `g` of element count `n1` is
known: `cudaMemcpyAsync` copies `2 * n1` grid values into the uv slice of
the packed buffer (flat destination offset `dir_w` for a CM packed buffer,
`dir_w * B` for RM), then `fill_unused_rgb_input`, then rgb inference. -/
def NerfNetwork.uv2textureTail [Field α] (net : NerfNetwork α)
    (st : NetState α) (B : Nat) (generated : Bool) (n1 : Nat) (g : Nat → α)
    (m1 : Nat → α) : Uv2TextureResult α :=
  { state := { st with m_uv_grid := some (n1, g) }
    generated := generated
    grid_size := n1
    grid_used := g
    output :=
      net.m_rgb_network.fwd
        (matGet net.m_dir_encoding.preferred_output_layout
          net.m_rgb_network_input_width B
          (net.fill_unused_rgb_input B
            (fun a =>
              if (if net.m_dir_encoding.preferred_output_layout = .CM
                    then net.m_dir_encoding.padded_output_width
                    else net.m_dir_encoding.padded_output_width * B) ≤ a
                  ∧ a < (if net.m_dir_encoding.preferred_output_layout = .CM
                          then net.m_dir_encoding.padded_output_width
                          else net.m_dir_encoding.padded_output_width * B) + 2 * n1
              then g (a - (if net.m_dir_encoding.preferred_output_layout = .CM
                            then net.m_dir_encoding.padded_output_width
                            else net.m_dir_encoding.padded_output_width * B))
              else m1 a))) }

/-- `uv2texture(stream, texture_size, dir, output)` with `B = output.n()`:
`repeat_vec` broadcasts `dir` into the first three rows of the dir-encoding
input (its remaining rows stay indeterminate, modelled 0); the dir encoding
writes through the leading view of the fresh packed buffer (initial
contents `mem0`); then, only if `m_uv_grid` has no data yet, the grid is
allocated with this call's `B` and filled by `generate_uv_grid` with this
call's `texture_size`; the (cached or fresh) grid is copied into the uv
slice; padding is zero-filled; rgb inference produces the texture. -/
def NerfNetwork.uv2texture [Field α] (net : NerfNetwork α) (st : NetState α)
    (texture_size : Nat) (dir : α × α × α) (B : Nat)
    (mem0 : Nat → α) : Uv2TextureResult α :=
  match st.m_uv_grid with
  | none =>
      net.uv2textureTail st B true B (generate_uv_grid B texture_size)
        (sliceWrite net.m_dir_encoding.preferred_output_layout
          net.m_rgb_network_input_width B 0
          net.m_dir_encoding.padded_output_width
          (net.m_dir_encoding.fwd (fun r _ =>
            if r = 0 then dir.1 else if r = 1 then dir.2.1
            else if r = 2 then dir.2.2 else 0))
          mem0)
  | some (n, g0) =>
      net.uv2textureTail st B false n g0
        (sliceWrite net.m_dir_encoding.preferred_output_layout
          net.m_rgb_network_input_width B 0
          net.m_dir_encoding.padded_output_width
          (net.m_dir_encoding.fwd (fun r _ =>
            if r = 0 then dir.1 else if r = 1 then dir.2.1
            else if r = 2 then dir.2.2 else 0))
          mem0)

/-! ## Reflection and introspection -/

/-- `hyperparams()`: the reflected configuration. The density sub-config
gets its `n_output_dims` overwritten with the density padded output width;
the state is passed to witness that no mutable field (in particular the uv
gradient scale) enters the result. -/
def NerfNetwork.hyperparams (net : NerfNetwork α) (_st : NetState α) : JsonVal :=
  .obj [("otype", .str "NerfNetwork"),
        ("pos_encoding", net.m_pos_encoding.hyperparams),
        ("dir_encoding", net.m_dir_encoding.hyperparams),
        ("density_network",
          jsonSetKey net.m_density_network.hyperparams "n_output_dims"
            (.nat net.m_density_network.padded_output_width)),
        ("uv_network", net.m_uv_network.hyperparams),
        ("rgb_network", net.m_rgb_network.hyperparams)]

/-- `num_forward_activations()`: density + uv + rgb layer counts plus the
two synthetic entries. -/
def NerfNetwork.num_forward_activations (net : NerfNetwork α) : Nat :=
  net.m_density_network.num_forward_activations
    + net.m_uv_network.num_forward_activations
    + net.m_rgb_network.num_forward_activations + 2

/-- `width(layer)`, translated branch for branch from the source. -/
def NerfNetwork.width (net : NerfNetwork α) (layer : Nat) : Nat :=
  if layer = 0 then net.m_pos_encoding.padded_output_width
  else if layer < net.m_density_network.num_forward_activations + 1 then
    net.m_density_network.width (layer - 1)
  else if layer < net.m_density_network.num_forward_activations
      + net.m_uv_network.num_forward_activations + 1 then
    net.m_uv_network.width (layer - net.m_density_network.num_forward_activations - 1)
  else if layer = net.m_density_network.num_forward_activations
      + net.m_uv_network.num_forward_activations + 1 then
    net.m_rgb_network_input_width
  else
    net.m_rgb_network.width (layer - net.m_density_network.num_forward_activations
      - net.m_uv_network.num_forward_activations - 2)

/-- Which buffer a flat activation index addresses. -/
inductive ActivationRef where
  | pos_output
  | density_layer : Nat → ActivationRef
  | uv_layer : Nat → ActivationRef
  | rgb_input
  | rgb_layer : Nat → ActivationRef
deriving DecidableEq, Repr

/-- `forward_activations(ctx, layer)`, translated branch for branch from
the source; the returned pointer is modelled by which buffer it addresses
(the rgb branch computes its sub-index as `layer - 2 - d - u`). -/
def NerfNetwork.forward_activations (net : NerfNetwork α) (layer : Nat) : ActivationRef :=
  if layer = 0 then .pos_output
  else if layer < net.m_density_network.num_forward_activations + 1 then
    .density_layer (layer - 1)
  else if layer < net.m_density_network.num_forward_activations
      + net.m_uv_network.num_forward_activations + 1 then
    .uv_layer (layer - net.m_density_network.num_forward_activations - 1)
  else if layer = net.m_density_network.num_forward_activations
      + net.m_uv_network.num_forward_activations + 1 then
    .rgb_input
  else
    .rgb_layer (layer - 2 - net.m_density_network.num_forward_activations
      - net.m_uv_network.num_forward_activations)

/-- The flat addressing scheme the specification describes: index 0 the
synthetic pos-encoding output, indices 1..d the density layers, d+1..d+u
the uv layers, d+u+1 the synthetic packed rgb-input buffer, and the rest
the rgb layers. -/
def NerfNetwork.flat_view_ref (net : NerfNetwork α) (layer : Nat) : ActivationRef :=
  if layer = 0 then .pos_output
  else if layer ≤ net.m_density_network.num_forward_activations then
    .density_layer (layer - 1)
  else if layer ≤ net.m_density_network.num_forward_activations
      + net.m_uv_network.num_forward_activations then
    .uv_layer (layer - net.m_density_network.num_forward_activations - 1)
  else if layer = net.m_density_network.num_forward_activations
      + net.m_uv_network.num_forward_activations + 1 then
    .rgb_input
  else
    .rgb_layer (layer - net.m_density_network.num_forward_activations
      - net.m_uv_network.num_forward_activations - 2)

/-- The width of the buffer a flat activation index addresses, per the
specification mapping. -/
def NerfNetwork.activation_ref_width (net : NerfNetwork α) : ActivationRef → Nat
  | .pos_output => net.m_pos_encoding.padded_output_width
  | .density_layer i => net.m_density_network.width i
  | .uv_layer i => net.m_uv_network.width i
  | .rgb_input => net.m_rgb_network_input_width
  | .rgb_layer i => net.m_rgb_network.width i

/-! ## Address arithmetic helpers -/

/-- Element `i`, channel `c` of a width-`W` element block: the quotient. -/
theorem addr_div_of_lt {W : Nat} (i c : Nat) (hc : c < W) : (i * W + c) / W = i := by
  rw [Nat.add_comm, Nat.add_mul_div_right c i (by omega), Nat.div_eq_of_lt hc,
    Nat.zero_add]

/-- Element `i`, channel `c` of a width-`W` element block: the remainder. -/
theorem addr_mod_of_lt {W : Nat} (i c : Nat) (hc : c < W) : (i * W + c) % W = c := by
  rw [Nat.add_comm, Nat.add_mul_mod_self_right, Nat.mod_eq_of_lt hc]

/-- A write strided by `W` from offset `off` misses the address of channel
`c ≠ off` of any element. -/
theorem addr_sub_mod_ne {W : Nat} (i c off : Nat) (hoff : off < W) (hc : c < W)
    (hne : c ≠ off) (hle : off ≤ i * W + c) : (i * W + c - off) % W ≠ 0 := by
  rcases le_or_lt off c with h | h
  · have he : i * W + c - off = W * i + (c - off) := by
      rw [Nat.mul_comm i W]
      omega
    rw [he, Nat.mul_add_mod, Nat.mod_eq_of_lt (by omega)]
    omega
  · obtain ⟨j, rfl⟩ : ∃ j, i = j + 1 := by
      refine ⟨i - 1, ?_⟩
      rcases Nat.eq_zero_or_pos i with rfl | hi
      · simp at hle; omega
      · omega
    have hexp : (j + 1) * W = W * j + W := by ring
    have he : (j + 1) * W + c - off = W * j + (W + c - off) := by omega
    rw [he, Nat.mul_add_mod, Nat.mod_eq_of_lt (by omega)]
    omega

/-- A write strided by `W` from offset `c` hits channel `c` of element `i`
at the strided index `i`. -/
theorem addr_sub_self {W : Nat} (i c : Nat) (hW : 0 < W) :
    (i * W + c - c) % W = 0 ∧ (i * W + c - c) / W = i := by
  have he : i * W + c - c = i * W := by omega
  rw [he]
  exact ⟨Nat.mul_mod_left i W, Nat.mul_div_cancel i hW⟩

/-! ## The claims -/

/-- C2: the total parameter count is the sum of the five sub-module counts,
and `set_params_impl` and `initialize_params` partition their flat buffers
in the identical fixed order density-net, uv-net, rgb-net, pos-encoding,
dir-encoding, each range starting at the cumulative offset of the
sub-modules before it. -/
theorem nerf_c2 (net : NerfNetwork α) :
    net.n_params
      = net.m_density_network.n_params + net.m_uv_network.n_params
        + net.m_rgb_network.n_params + net.m_pos_encoding.n_params
        + net.m_dir_encoding.n_params
    ∧ net.set_params_impl
      = [("density_network", 0, net.m_density_network.n_params),
         ("uv_network", net.m_density_network.n_params, net.m_uv_network.n_params),
         ("rgb_network", net.m_density_network.n_params + net.m_uv_network.n_params,
            net.m_rgb_network.n_params),
         ("pos_encoding",
            net.m_density_network.n_params + net.m_uv_network.n_params
              + net.m_rgb_network.n_params, net.m_pos_encoding.n_params),
         ("dir_encoding",
            net.m_density_network.n_params + net.m_uv_network.n_params
              + net.m_rgb_network.n_params + net.m_pos_encoding.n_params,
            net.m_dir_encoding.n_params)]
    ∧ net.initialize_params = net.set_params_impl := by
  refine ⟨?_, ?_, rfl⟩
  · unfold NerfNetwork.n_params
    ring
  · simp [NerfNetwork.set_params_impl]

/-- C6: each density-only operation fails (returning its layout error, with
no result and before any work) exactly when its external input, or for
`density_backward` also a supplied external-input-gradient destination, is
not column major; with correct layouts no error is raised. -/
theorem nerf_c6 (net : NerfNetwork α) (L : MatrixLayout)
    (dL_dinput_layout : Option MatrixLayout) (input : Nat → Nat → α)
    (wantOutput : Bool) (ctx : DensityForwardContext α)
    (dL_doutput : Nat → Nat → α) :
    (isOkB (net.density L input) = true ↔ L = .CM)
    ∧ (isOkB (net.density_forward L input wantOutput) = true ↔ L = .CM)
    ∧ (isOkB (net.density_backward L dL_dinput_layout ctx dL_doutput) = true
        ↔ (L = .CM ∧ ∀ L0 ∈ dL_dinput_layout, L0 = .CM)) := by
  refine ⟨?_, ?_, ?_⟩
  · cases L <;> simp [NerfNetwork.density, isOkB]
  · cases L <;> simp [NerfNetwork.density_forward, isOkB]
  · cases L <;> rcases dL_dinput_layout with _ | L0
    · simp [NerfNetwork.density_backward, isOkB]
    · cases L0 <;> simp [NerfNetwork.density_backward, isOkB]
    · simp [NerfNetwork.density_backward, isOkB]
    · cases L0 <;> simp [NerfNetwork.density_backward, isOkB]

/-- C7: the texture uv grid is generated exactly on the first call (the
cache decision reads only whether the grid exists, not the texture or
batch size), is stored with that call's batch size and texture size, and
every later call reuses the identical cached contents and leaves the state
unchanged. -/
theorem nerf_c7 [Field α] (net : NerfNetwork α) (s : NetState α)
    (ts1 ts2 B1 B2 : Nat) (dir : α × α × α) (mem0 mem1 : Nat → α) :
    (net.uv2texture s ts1 dir B1 mem0).generated = s.m_uv_grid.isNone
    ∧ (net.uv2texture { s with m_uv_grid := none } ts1 dir B1 mem0).generated = true
    ∧ (net.uv2texture { s with m_uv_grid := none } ts1 dir B1 mem0).state.m_uv_grid
        = some (B1, generate_uv_grid B1 ts1)
    ∧ (net.uv2texture { s with m_uv_grid := none } ts1 dir B1 mem0).grid_used
        = generate_uv_grid B1 ts1
    ∧ (net.uv2texture
          (net.uv2texture { s with m_uv_grid := none } ts1 dir B1 mem0).state
          ts2 dir B2 mem1).generated = false
    ∧ (net.uv2texture
          (net.uv2texture { s with m_uv_grid := none } ts1 dir B1 mem0).state
          ts2 dir B2 mem1).grid_used
        = (net.uv2texture { s with m_uv_grid := none } ts1 dir B1 mem0).grid_used
    ∧ (net.uv2texture
          (net.uv2texture { s with m_uv_grid := none } ts1 dir B1 mem0).state
          ts2 dir B2 mem1).state
        = (net.uv2texture { s with m_uv_grid := none } ts1 dir B1 mem0).state := by
  refine ⟨?_, rfl, rfl, rfl, rfl, rfl, rfl⟩
  rcases hm : s.m_uv_grid with _ | ⟨n, g⟩ <;>
    simp [NerfNetwork.uv2texture, NerfNetwork.uv2textureTail, hm]

/-- C8 (amended): `hyperparams` returns the otype marker and the five
sub-module reflected configurations (the density one with its
`n_output_dims` overridden by the density padded output width), and nothing
else; in particular the result does not depend on, or contain, the uv
gradient scale. -/
theorem nerf_c8 (net : NerfNetwork α) (st st2 : NetState α) :
    jsonLookup (net.hyperparams st) "pos_encoding" = some net.m_pos_encoding.hyperparams
    ∧ jsonLookup (net.hyperparams st) "dir_encoding" = some net.m_dir_encoding.hyperparams
    ∧ jsonLookup (net.hyperparams st) "density_network"
        = some (jsonSetKey net.m_density_network.hyperparams "n_output_dims"
            (.nat net.m_density_network.padded_output_width))
    ∧ jsonLookup (net.hyperparams st) "uv_network" = some net.m_uv_network.hyperparams
    ∧ jsonLookup (net.hyperparams st) "rgb_network" = some net.m_rgb_network.hyperparams
    ∧ jsonKeys (net.hyperparams st)
        = ["otype", "pos_encoding", "dir_encoding", "density_network",
           "uv_network", "rgb_network"]
    ∧ net.hyperparams st = net.hyperparams st2 := by
  refine ⟨?_, ?_, ?_, ?_, ?_, rfl, rfl⟩ <;>
    simp [NerfNetwork.hyperparams, jsonLookup, lookupList]

/-- C9: the flat activation view has exactly `d + u + r + 2` entries, and
`width` and `forward_activations` agree, for every flat index, with the
documented mapping (0 the pos-encoding output, 1..d the density layers,
d+1..d+u the uv layers, d+u+1 the packed rgb-input buffer of width
`m_rgb_network_input_width`, the rest the rgb layers). -/
theorem nerf_c9 (net : NerfNetwork α) :
    net.num_forward_activations
      = net.m_density_network.num_forward_activations
        + net.m_uv_network.num_forward_activations
        + net.m_rgb_network.num_forward_activations + 2
    ∧ ∀ layer : Nat,
        net.forward_activations layer = net.flat_view_ref layer
        ∧ net.width layer = net.activation_ref_width (net.flat_view_ref layer) := by
  refine ⟨rfl, fun layer => ?_⟩
  have hidx : layer - 2 - net.m_density_network.num_forward_activations
      - net.m_uv_network.num_forward_activations
      = layer - net.m_density_network.num_forward_activations
        - net.m_uv_network.num_forward_activations - 2 := by
    omega
  constructor
  · unfold NerfNetwork.forward_activations NerfNetwork.flat_view_ref
    simp only [Nat.lt_succ_iff, hidx]
  · unfold NerfNetwork.width NerfNetwork.flat_view_ref
    simp only [Nat.lt_succ_iff]
    split_ifs <;> rfl

/-- C10: the uv gradient scale field is assigned only by
`set_uv_network_scale`; the constructor leaves it indeterminate, the one
state-mutating operation (`uv2texture`) does not touch it, and the accessor
and the backward-pass read observe `none` before the first set and exactly
the most recently set value afterwards. (Every other member operation of
the embedding is a pure function of the configuration and takes no state at
all.) -/
theorem nerf_c10 [Field α] (net : NerfNetwork α) (st : NetState α) (v w : α)
    (texture_size B : Nat) (dir : α × α × α) (mem0 : Nat → α) :
    (constructed_state α).m_uv_network_scale = none
    ∧ NerfNetwork.uv_network_scale (constructed_state α) = none
    ∧ NerfNetwork.backward_scale_read (constructed_state α) = none
    ∧ (net.uv2texture st texture_size dir B mem0).state.m_uv_network_scale
        = st.m_uv_network_scale
    ∧ NerfNetwork.uv_network_scale (NerfNetwork.set_uv_network_scale st v) = some v
    ∧ NerfNetwork.backward_scale_read (NerfNetwork.set_uv_network_scale st v) = some v
    ∧ NerfNetwork.uv_network_scale
        (NerfNetwork.set_uv_network_scale (NerfNetwork.set_uv_network_scale st v) w)
        = some w := by
  refine ⟨rfl, rfl, rfl, ?_, rfl, rfl, rfl⟩
  rcases hm : st.m_uv_grid with _ | ⟨n, g⟩ <;>
    simp [NerfNetwork.uv2texture, NerfNetwork.uv2textureTail, hm]

/-- C5 (amended): under the row-major packed layout, after any inference or
forward call every element of the packed rgb-input buffer in the
zero-filled band — rows `dir_w + 2` up to `dir_w + uv_w - 1`, i.e. the
padding inside the uv-network padded output — is exactly zero. (The
kernel never touches the rows from `dir_w + uv_w` up to the full packed
width `m_rgb_network_input_width`; they stay indeterminate whenever the
packed width exceeds `dir_w + uv_w`.) -/
theorem nerf_c5 (net : NerfNetwork α) [Zero α] (B : Nat)
    (input : Nat → Nat → α) (mem0 : Nat → α)
    (hL : net.m_dir_encoding.preferred_output_layout = .RM)
    (huv : 2 ≤ net.m_uv_network.padded_output_width) :
    ∀ r, net.m_dir_encoding.padded_output_width + 2 ≤ r →
      r < net.m_dir_encoding.padded_output_width
          + net.m_uv_network.padded_output_width →
    ∀ c < B, net.rgb_network_input B input mem0 (r * B + c) = 0 := by
  intro r hr1 hr2 c hc
  have hdiv : (r * B + c) / B = r := addr_div_of_lt r c hc
  unfold NerfNetwork.rgb_network_input NerfNetwork.fill_unused_rgb_input
  rw [hL]
  simp only [sliceWrite, memsetZero]
  rw [if_neg (by
    rintro ⟨-, h2⟩
    rw [hdiv] at h2
    omega)]
  rw [if_pos ?_]
  constructor
  · calc (net.m_dir_encoding.padded_output_width + 2) * B
        ≤ r * B := Nat.mul_le_mul_right B (by omega)
    _ ≤ r * B + c := Nat.le_add_right _ _
  · have hsum : (net.m_dir_encoding.padded_output_width + 2) * B
        + (net.m_uv_network.padded_output_width - 2) * B
        = (net.m_dir_encoding.padded_output_width
            + net.m_uv_network.padded_output_width) * B := by
      rw [← Nat.add_mul]
      congr 1
      omega
    rw [hsum]
    calc r * B + c < (r + 1) * B := by
          rw [Nat.add_mul, Nat.one_mul]
          omega
    _ ≤ (net.m_dir_encoding.padded_output_width
          + net.m_uv_network.padded_output_width) * B :=
        Nat.mul_le_mul_right B (by omega)

/-- C1 (amended): when the caller output buffer is column major (AoS) and
the direction encoder prefers the column-major layout, the output of
`forward_impl` with a non-null output agrees with
`inference_mixed_precision_impl` on channels 0..3 (rgb and density) of
every element, for every batch size. (The uv channels 4 and 5 are written
only by inference; `forward_impl` leaves the rgb-network padding values
there, and under a row-major output its density extraction addresses the
buffer as if it were column major.) -/
theorem nerf_c1 [Zero α] (net : NerfNetwork α) (B : Nat)
    (input : Nat → Nat → α) (rgbInit outInit : Nat → α)
    (hdir : net.m_dir_encoding.preferred_output_layout = .CM)
    (hrgb : 6 ≤ net.m_rgb_network.padded_output_width) :
    ∀ c < 4, ∀ i < B,
      net.inference_mixed_precision_impl .CM B input rgbInit outInit
          (i * net.padded_output_width + c)
        = net.forward_impl .CM B input rgbInit outInit
          (i * net.padded_output_width + c) := by
  intro c hc i hi
  have hpad : net.padded_output_width = net.m_rgb_network.padded_output_width := by
    unfold NerfNetwork.padded_output_width
    omega
  rw [hpad]
  unfold NerfNetwork.inference_mixed_precision_impl NerfNetwork.forward_impl
  rw [hdir, hpad]
  simp only [reduceIte, extract_uv, Nat.mul_one]
  rw [if_neg ?hmiss5, if_neg ?hmiss4]
  case hmiss5 =>
    rintro ⟨h1, h2, -⟩
    exact addr_sub_mod_ne i c 5 (by omega) (by omega) (by omega) h1 h2
  case hmiss4 =>
    rintro ⟨h1, h2, -⟩
    exact addr_sub_mod_ne i c 4 (by omega) (by omega) (by omega) h1 h2

/-- C3 (amended): on an instance whose dir encoding prefers the row-major
layout — where the flat `scale_gradient` launch covers exactly the uv
slice — that slice of the packed-buffer gradient is scaled exactly once,
entering uv-net backward, and never inverted or re-applied; hence with
linear density and uv networks (density-net backward annihilates the zero
gradient; uv-net backward commutes with the scaling and reads the gradient
only on its `uv_w × B` slice) an output gradient that vanishes on channels
0..3 produces, in density-network-input space, exactly `scale` times the
unscaled uv-path contribution and nothing else. Under a column-major
preferring dir encoding the flat launch covers the wrong entries and the
property fails (see the counterexample). -/
theorem nerf_c3 [CommRing α] (net : NerfNetwork α) (ctx : ForwardContext α)
    (B : Nat) (scale : α) (dL_doutput : Nat → Nat → α) (wantInputGrad : Bool)
    (hL : net.m_dir_encoding.preferred_output_layout = .RM)
    (hzero : ∀ r < 4, ∀ c, dL_doutput r c = 0)
    (hdens : ∀ r c, net.m_density_network.bwdInput ctx.density_network_input
        (fun _ _ => 0) r c = 0)
    (huv : ∀ g : Nat → Nat → α, ∀ r c,
        net.m_uv_network.bwdInput ctx.density_network_input
          (fun r0 c0 => scale * g r0 c0) r c
          = scale * net.m_uv_network.bwdInput ctx.density_network_input g r c)
    (huvloc : ∀ g g0 : Nat → Nat → α,
        (∀ r0 < net.m_uv_network.padded_output_width, ∀ c0 < B, g r0 c0 = g0 r0 c0) →
        ∀ r c, net.m_uv_network.bwdInput ctx.density_network_input g r c
          = net.m_uv_network.bwdInput ctx.density_network_input g0 r c)
    (halloc : ((net.m_pos_encoding.n_params != 0) || wantInputGrad) = true) :
    ∀ r c,
      optApply (net.backward_impl ctx B scale dL_doutput
          wantInputGrad).dL_ddensity_network_input r c
        = scale * net.unscaled_uv_contribution ctx B dL_doutput r c := by
  intro r c
  have hdzero : backward_dL_ddensity_network_output B dL_doutput
      = (fun _ _ => (0 : α)) := by
    funext r0 c0
    unfold backward_dL_ddensity_network_output
    rw [hzero 3 (by omega) c0]
    exact ite_self 0
  -- On the meaningful uv slice, the scaled view is the scaled filled view:
  -- under RM the flat range [dir_w * B, dir_w * B + uv_w * B) of the
  -- scale_gradient launch contains every view address (dir_w + r0) * B + c0.
  have hview : ∀ r0 < net.m_uv_network.padded_output_width, ∀ c0 < B,
      net.backward_dL_duv_network_output ctx B scale dL_doutput r0 c0
        = scale * sliceView net.m_dir_encoding.preferred_output_layout
            net.m_rgb_network_input_width B net.m_dir_encoding.padded_output_width
            (net.fill_unused_rgb_input B
              (matFlat net.m_dir_encoding.preferred_output_layout
                net.m_rgb_network_input_width B
                (net.backward_dL_drgb_network_input ctx B dL_doutput))) r0 c0 := by
    intro r0 hr0 c0 hc0
    unfold NerfNetwork.backward_dL_duv_network_output
      NerfNetwork.backward_packed_gradient_mem
    rw [hL]
    simp only [sliceView, scale_gradient, reduceIte]
    rw [if_pos ?_]
    constructor
    · calc net.m_dir_encoding.padded_output_width * B
          ≤ (net.m_dir_encoding.padded_output_width + r0) * B :=
            Nat.mul_le_mul_right B (by omega)
      _ ≤ (net.m_dir_encoding.padded_output_width + r0) * B + c0 :=
            Nat.le_add_right _ _
    · calc (net.m_dir_encoding.padded_output_width + r0) * B + c0
          < (net.m_dir_encoding.padded_output_width + r0 + 1) * B := by
            rw [Nat.add_mul (net.m_dir_encoding.padded_output_width + r0) 1 B,
              Nat.one_mul]
            omega
      _ ≤ (net.m_dir_encoding.padded_output_width
            + net.m_uv_network.padded_output_width) * B :=
            Nat.mul_le_mul_right B (by omega)
      _ = net.m_dir_encoding.padded_output_width * B
            + net.m_uv_network.padded_output_width * B := Nat.add_mul _ _ B
  unfold NerfNetwork.backward_impl
  rw [if_pos halloc]
  show net.backward_G_density ctx B dL_doutput r c
      + net.backward_G_uv ctx B scale dL_doutput r c = _
  rw [NerfNetwork.backward_G_density, hdzero, hdens r c, zero_add]
  unfold NerfNetwork.backward_G_uv NerfNetwork.unscaled_uv_contribution
  rw [huvloc _ _ hview r c, huv]

/-- C4: in every backward call the density-network-input-space summation
buffer is allocated exactly when the pos encoding is trainable or an
external-input gradient was requested; when allocated it holds the
elementwise sum of G_density and G_uv and is exactly what pos-encoding
backward receives; pos-encoding backward runs exactly when the buffer was
allocated, and without allocation no summation happens. -/
theorem nerf_c4 [CommRing α] (net : NerfNetwork α) (ctx : ForwardContext α)
    (B : Nat) (scale : α) (dL_doutput : Nat → Nat → α) (wantInputGrad : Bool) :
    ((net.backward_impl ctx B scale dL_doutput
          wantInputGrad).dL_ddensity_network_input.isSome = true
        ↔ (0 < net.m_pos_encoding.n_params ∨ wantInputGrad = true))
    ∧ ((net.backward_impl ctx B scale dL_doutput wantInputGrad).pos_ran = true
        ↔ (net.backward_impl ctx B scale dL_doutput
            wantInputGrad).dL_ddensity_network_input.isSome = true)
    ∧ (net.backward_impl ctx B scale dL_doutput wantInputGrad).pos_backward_arg
        = (net.backward_impl ctx B scale dL_doutput
            wantInputGrad).dL_ddensity_network_input
    ∧ ∀ r c,
        optApply (net.backward_impl ctx B scale dL_doutput
            wantInputGrad).dL_ddensity_network_input r c
          = if 0 < net.m_pos_encoding.n_params ∨ wantInputGrad = true then
              net.backward_G_density ctx B dL_doutput r c
                + net.backward_G_uv ctx B scale dL_doutput r c
            else 0 := by
  have key : ((net.m_pos_encoding.n_params != 0) || wantInputGrad) = true
      ↔ (0 < net.m_pos_encoding.n_params ∨ wantInputGrad = true) := by
    simp [Nat.pos_iff_ne_zero]
  have h1 : (net.backward_impl ctx B scale dL_doutput
        wantInputGrad).dL_ddensity_network_input
      = if ((net.m_pos_encoding.n_params != 0) || wantInputGrad) = true then
          some (fun r c => net.backward_G_density ctx B dL_doutput r c
            + net.backward_G_uv ctx B scale dL_doutput r c)
        else none := rfl
  have h2 : (net.backward_impl ctx B scale dL_doutput wantInputGrad).pos_ran
      = ((net.m_pos_encoding.n_params != 0) || wantInputGrad) := rfl
  have h3 : (net.backward_impl ctx B scale dL_doutput wantInputGrad).pos_backward_arg
      = (net.backward_impl ctx B scale dL_doutput
          wantInputGrad).dL_ddensity_network_input := rfl
  cases hb : ((net.m_pos_encoding.n_params != 0) || wantInputGrad) with
  | false =>
      have hp : ¬(0 < net.m_pos_encoding.n_params ∨ wantInputGrad = true) := by
        intro hp0
        have h := key.mpr hp0
        rw [hb] at h
        exact absurd h (by decide)
      refine ⟨?_, ?_, h3, ?_⟩
      · rw [h1, hb, if_neg (by decide)]
        simp [hp]
      · rw [h2, hb, h1, hb, if_neg (by decide)]
        simp
      · intro r c
        rw [h1, hb, if_neg (by decide), if_neg hp]
        rfl
  | true =>
      have hp : 0 < net.m_pos_encoding.n_params ∨ wantInputGrad = true := key.mp hb
      refine ⟨?_, ?_, h3, ?_⟩
      · rw [h1, hb, if_pos rfl]
        simp [hp]
      · rw [h2, hb, h1, hb, if_pos rfl]
        simp
      · intro r c
        rw [h1, hb, if_pos rfl, if_pos hp]
        rfl

/-! ## Concrete instances, witnesses and counterexamples -/

/-- A concrete sub-module for instantiating the theorems: constant forward
output `v`, identity backward gradient map, one forward activation. -/
def sampleModule (iw ow np : Nat) (L : MatrixLayout) (v : Int) (name : String) :
    NetworkModule Int :=
  { input_width := iw
    padded_output_width := ow
    n_params := np
    preferred_output_layout := L
    fwd := fun _ _ _ => v
    bwdInput := fun _ g r c => g r c
    num_forward_activations := 1
    width := fun _ => ow
    hyperparams := .obj [("otype", .str name)] }

/-- A small concrete instance: row-major dir encoding of padded width 8,
uv padded width 4, rgb padded width 6, rgb alignment 4 (packed width 12). -/
def sampleNet : NerfNetwork Int :=
  { m_density_network := sampleModule 16 16 4 .CM 2 "DensityNet"
    m_uv_network := sampleModule 16 4 6 .RM 1 "UvNet"
    m_rgb_network := sampleModule 12 6 8 .CM 0 "RgbNet"
    m_pos_encoding := sampleModule 3 16 10 .CM 3 "PosEnc"
    m_dir_encoding := sampleModule 3 8 0 .RM 5 "DirEnc"
    rgb_alignment := 4
    m_n_pos_dims := 3
    m_n_dir_dims := 3
    m_n_extra_dims := 0
    m_dir_offset := 4 }

/-- `sampleNet` with a column-major-preferring dir encoding. -/
def sampleNetCM : NerfNetwork Int :=
  { sampleNet with m_dir_encoding := sampleModule 3 8 0 .CM 5 "DirEnc" }

/-- `sampleNet` with dir padded width 16 and rgb alignment 16: the packed
width is 32 while `dir_w + uv_w` is only 20. -/
def sampleNetPad : NerfNetwork Int :=
  { sampleNet with
      m_dir_encoding := sampleModule 3 16 0 .RM 5 "DirEnc"
      rgb_alignment := 16 }

/-- Witness for C1 at the concrete instance: batch 1, element 0, the
density channel 3. -/
theorem nerf_c1_witness :
    NerfNetwork.inference_mixed_precision_impl sampleNetCM .CM 1 (fun _ _ => 0)
        (fun _ => 0) (fun _ => 0)
        (0 * NerfNetwork.padded_output_width sampleNetCM + 3)
      = NerfNetwork.forward_impl sampleNetCM .CM 1 (fun _ _ => 0)
        (fun _ => 0) (fun _ => 0)
        (0 * NerfNetwork.padded_output_width sampleNetCM + 3) :=
  nerf_c1 sampleNetCM 1 (fun _ _ => 0) (fun _ => 0) (fun _ => 0) rfl (by decide)
    3 (by decide) 0 (by decide)

/-- The claim C1 is false as stated: at identical parameters and input,
flat address 4 of the element-0 block — uv channel 4 of the declared
column-major output, batch 1 — holds the uv value (here 1) after
inference but the untouched rgb-network padding value (here 0) after
forward-with-output, because the uv extraction of `forward_impl` is
commented out. -/
theorem nerf_c1_counterexample :
    NerfNetwork.inference_mixed_precision_impl sampleNet .CM 1 (fun _ _ => 0)
        (fun _ => 0) (fun _ => 0) 4
      ≠ NerfNetwork.forward_impl sampleNet .CM 1 (fun _ _ => 0)
        (fun _ => 0) (fun _ => 0) 4 := by
  decide

/-- Witness for C5 at the concrete instance: row 10 lies in the zeroed
band `[dir_w + 2, dir_w + uv_w) = [10, 12)`; batch 1, junk initial
contents 5. -/
theorem nerf_c5_witness :
    NerfNetwork.rgb_network_input sampleNet 1 (fun _ _ => 0) (fun _ => 5)
        (10 * 1 + 0) = 0 :=
  nerf_c5 sampleNet 1 (fun _ _ => 0) (fun _ => 5) rfl (by decide) 10 (by decide)
    (by decide) 0 (by decide)

/-- The claim C5 is false as stated: with packed width 32 and
`dir_w + uv_w = 20`, row 20 lies inside the claimed all-zero padding
region `[dir_w + 2, 32)` but no write ever reaches it; it keeps the
indeterminate initial value 7 after the buffer is built. -/
theorem nerf_c5_counterexample :
    sampleNetPad.m_dir_encoding.padded_output_width + 2 ≤ 20
    ∧ 20 < NerfNetwork.m_rgb_network_input_width sampleNetPad
    ∧ NerfNetwork.rgb_network_input sampleNetPad 1 (fun _ _ => 0) (fun _ => 7)
        (20 * 1 + 0) ≠ 0 := by
  refine ⟨by decide, by decide, by decide⟩

/-- An output gradient non-zero exactly on the uv channels 4 and 5. -/
def c3_dout : Nat → Nat → Int := fun r _ => if r = 4 ∨ r = 5 then 1 else 0

/-- A concrete forward context. -/
def c3_ctx : ForwardContext Int :=
  { density_network_input := fun _ _ => 0
    density_network_output := fun _ _ => 0
    rgb_network_input := fun _ _ => 0
    uv_network_output := fun _ _ => 0 }

/-- `sampleNet` (row-major dir encoder) with uv and density backward maps
that are linear and read the gradient only at entry (0, 0). -/
def sampleNetC3w : NerfNetwork Int :=
  { sampleNet with
      m_uv_network :=
        { sampleModule 16 4 6 .RM 1 "UvNet" with bwdInput := fun _ g _ _ => g 0 0 }
      m_density_network :=
        { sampleModule 16 16 4 .CM 2 "DensityNet" with
            bwdInput := fun _ g _ _ => g 0 0 } }

/-- Witness for C3 at the concrete row-major instance with scale 2,
entry (0, 0). -/
theorem nerf_c3_witness :
    optApply ((NerfNetwork.backward_impl sampleNetC3w c3_ctx 1 2 c3_dout
        true).dL_ddensity_network_input) 0 0
      = 2 * NerfNetwork.unscaled_uv_contribution sampleNetC3w c3_ctx 1 c3_dout 0 0 :=
  nerf_c3 sampleNetC3w c3_ctx 1 2 c3_dout true rfl
    (fun r hr c => by unfold c3_dout; rw [if_neg (by omega)])
    (fun r c => rfl) (fun g r c => rfl)
    (fun g g0 h r c => h 0 (by decide) 0 (by decide))
    (by decide) 0 0

/-- `sampleNetCM` (column-major-preferring dir encoder, `dir_w = 8`,
`uv_w = 4`, packed width 12) with an rgb backward map returning constant 1
— the claim constrains only the density and uv nets to be linear. -/
def sampleNetC3 : NerfNetwork Int :=
  { sampleNetCM with
      m_rgb_network :=
        { sampleModule 12 6 8 .CM 0 "RgbNet" with bwdInput := fun _ _ _ _ => 1 } }

/-- The claim C3 is false as stated: under the column-major-preferring dir
encoder and batch 3, the flat `scale_gradient` launch covers addresses
`[8, 20)` of the packed gradient — the uv slice of column 0 plus the dir
slice of column 1 — and misses the uv entries of columns 1 and 2. With
linear (identity) density and uv backward maps and an output gradient
non-zero only on the uv channels, the density-network-input-space
contribution at entry (0, 1) is the unscaled value 1, not
`scale * unscaled = 2`. -/
theorem nerf_c3_counterexample :
    optApply ((NerfNetwork.backward_impl sampleNetC3 c3_ctx 3 2 c3_dout
        true).dL_ddensity_network_input) 0 1
      ≠ 2 * NerfNetwork.unscaled_uv_contribution sampleNetC3 c3_ctx 3 c3_dout 0 1 := by
  decide

/-- The claim C8 is false as stated: the reflected configuration of the
concrete instance has no uv-gradient-scale entry, and the result does not
depend on the value of the scale field at all. -/
theorem nerf_c8_counterexample :
    jsonLookup
        (NerfNetwork.hyperparams sampleNet
          { m_uv_network_scale := some 3, m_uv_grid := none }) "uv_network_scale"
      = none
    ∧ NerfNetwork.hyperparams sampleNet
        { m_uv_network_scale := some 3, m_uv_grid := none }
      = NerfNetwork.hyperparams sampleNet
        { m_uv_network_scale := some 4, m_uv_grid := none } := by
  constructor
  · simp [NerfNetwork.hyperparams, jsonLookup, lookupList]
  · rfl

end NGP
